import Mathlib

/-!
Verification of the sqlite-vec Android JNI binding layer
(`src/bindings/android/src/main/cpp/sqlite-vec-jni.c` and
`sqlite-vec-jni.cpp`) against its natural-language specification.

Modelling conventions:
* A `jfloat` is represented by its 32-bit IEEE-754 bit pattern, a `Nat`
  (the binding code never performs floating-point arithmetic, it only
  reinterprets the 4-byte memory representation, so bit patterns are the
  faithful observable).  Host byte order is fixed to little-endian; the
  spec itself says no endianness normalisation is performed.
* A `jbyte` is a `Nat` (one byte value); a `jbyteArray` / `jfloatArray`
  is a `List Nat`.
* JNI primitives `NewByteArray`/`NewFloatArray` and `Set…ArrayRegion`
  are modelled as `newArray` and `setRegion` below.
  `Get…ArrayElements` yields a copy of the array's contents;
  `Release…ArrayElements` with mode `0` commits the buffer back into the
  array, with `JNI_ABORT` it discards the buffer.  Each marshalling
  function therefore returns a pair: its JNI return value, and the
  contents of the borrowed input array after the release call.
  JNI allocation failures (a null return from `New…Array` or
  `Get…ArrayElements`, which in practice raises `OutOfMemoryError`)
  are outside the model: allocation always succeeds.
* The SQLite engine and the `sqlite3_vec_init` entry point are external
  libraries; they are modelled as oracles (`SqlEngine`, and an
  `extInit` function argument).  Each query-adapter operation also
  returns a trace of the engine calls it made (`JEvent`), so that
  resource-handling claims (prepare/finalize pairing, read-before-
  finalize) are statable.
-/

/-- SQLite success status code. -/
def SQLITE_OK : Nat := 0

/-- SQLite generic error status code. -/
def SQLITE_ERROR : Nat := 1

/-- Model of `NewByteArray` / `NewFloatArray`: a fresh zero-filled array
of `n` elements. -/
def newArray (n : Nat) : List Nat := List.replicate n 0

/-- Model of `SetByteArrayRegion` / `SetFloatArrayRegion`: write the first
`len` elements of `src` into `dst` starting at index `start`. -/
def setRegion (dst src : List Nat) (start len : Nat) : List Nat :=
  dst.take start ++ src.take len ++ dst.drop (start + len)

/-- Little-endian (host-order) byte representation of one 32-bit float
bit pattern, as laid out in memory when a `jfloat*` buffer is
reinterpreted as `jbyte*`. -/
def wordToBytes (w : Nat) : List Nat :=
  [w % 256, w / 256 % 256, w / 65536 % 256, w / 16777216 % 256]

/-- Memory image of a float buffer: concatenated 4-byte representations. -/
def wordsToBytes : List Nat → List Nat
  | [] => []
  | w :: rest => wordToBytes w ++ wordsToBytes rest

/-- Reinterpretation of a byte buffer as 32-bit floats: consecutive
4-byte groups reassembled in host (little-endian) order.  Trailing bytes
that do not fill a full group are not read. -/
def bytesToWords : List Nat → List Nat
  | b0 :: b1 :: b2 :: b3 :: rest =>
      (b0 + 256 * b1 + 65536 * b2 + 16777216 * b3) :: bytesToWords rest
  | _ => []

/-- `Java_com_sqlite_vec_SQLiteVec_nativeSerializeFloat32` from
`sqlite-vec-jni.c`: gets the float elements, allocates a byte array of
`length * sizeof(float)` bytes, copies the raw bytes in, and releases the
elements with mode `0` (commit).  Returns (byte array, input array after
release). -/
def serializeFloat32_c (v : List Nat) : List Nat × List Nat :=
  let elements := v
  let byteLen := v.length * 4
  let result := setRegion (newArray byteLen) (wordsToBytes elements) 0 byteLen
  (result, elements)

/-- `Java_com_sqlite_vec_SQLiteVec_nativeDeserializeFloat32` from
`sqlite-vec-jni.c`: computes `float_count = data_length / sizeof(float)`
(truncating integer division, no divisibility check), allocates a float
array of that many elements, copies `float_count` floats out of the byte
buffer, and releases the bytes with mode `0`.  Always returns an array. -/
def deserializeFloat32_c (b : List Nat) : List Nat × List Nat :=
  let data_bytes := b
  let float_count := b.length / 4
  let result := setRegion (newArray float_count) (bytesToWords data_bytes) 0 float_count
  (result, data_bytes)

/-- `Java_com_sqlite_vec_SQLiteVec_nativeSerializeInt8` from
`sqlite-vec-jni.c`: allocates a byte array of the same length and copies
the input bytes into it; releases with mode `0`. -/
def serializeInt8_c (v : List Nat) : List Nat × List Nat :=
  let elements := v
  let result := setRegion (newArray v.length) elements 0 v.length
  (result, elements)

/-- `Java_com_sqlite_vec_SQLiteVec_nativeDeserializeInt8` from
`sqlite-vec-jni.c`: identical copy, like `serializeInt8_c`. -/
def deserializeInt8_c (b : List Nat) : List Nat × List Nat :=
  let data_bytes := b
  let result := setRegion (newArray b.length) data_bytes 0 b.length
  (result, data_bytes)

/-- `Java_com_sqlite_vec_SQLiteVec_nativeSerializeFloat32` from
`sqlite-vec-jni.cpp`: same byte copy as the C version, but releases the
float elements with `JNI_ABORT` (discard). -/
def serializeFloat32_cpp (v : List Nat) : List Nat × List Nat :=
  let elements := v
  let byteLength := v.length * 4
  let result := setRegion (newArray byteLength) (wordsToBytes elements) 0 byteLength
  (result, v)

/-- `Java_com_sqlite_vec_SQLiteVec_nativeDeserializeFloat32` from
`sqlite-vec-jni.cpp`: rejects a byte length that is not a multiple of
`sizeof(float)` by returning `nullptr` (modelled `none`); otherwise
copies `byteLength / 4` floats out.  Releases with `JNI_ABORT`. -/
def deserializeFloat32_cpp (b : List Nat) : Option (List Nat) × List Nat :=
  let bytes := b
  if b.length % 4 ≠ 0 then
    (none, b)
  else
    let floatLength := b.length / 4
    let result := setRegion (newArray floatLength) (bytesToWords bytes) 0 floatLength
    (some result, b)

/-- `Java_com_sqlite_vec_SQLiteVec_nativeSerializeInt8` from
`sqlite-vec-jni.cpp`: identical copy of the input byte array, released
with `JNI_ABORT`. -/
def serializeInt8_cpp (v : List Nat) : List Nat × List Nat :=
  let elements := v
  let result := setRegion (newArray v.length) elements 0 v.length
  (result, v)

/-- `Java_com_sqlite_vec_SQLiteVec_nativeInit` from `sqlite-vec-jni.c`:
casts the handle and calls `sqlite3_vec_init` unconditionally — there is
no null check.  `extInit` is the oracle for the external entry point,
mapping the connection pointer to (status, optional error message); the
error message, when present on failure, is freed and logged, neither of
which is observable here.  Returns (status, whether the entry point was
called). -/
def nativeInit_c (extInit : Nat → Nat × Option String) (db_pointer : Nat) :
    Nat × Bool :=
  let r := extInit db_pointer
  (r.1, true)

/-- `Java_com_sqlite_vec_SQLiteVec_nativeInit` from `sqlite-vec-jni.cpp`:
returns `SQLITE_ERROR` immediately when the handle is null (pointer `0`),
without calling the entry point; otherwise calls `sqlite3_vec_init` and
returns its status.  Returns (status, whether the entry point was
called). -/
def nativeInit_cpp (extInit : Nat → Nat × Option String) (dbHandle : Nat) :
    Nat × Bool :=
  if dbHandle = 0 then
    (SQLITE_ERROR, false)
  else
    let r := extInit dbHandle
    (r.1, true)

/-- Observable calls a query-adapter operation makes into the SQLite C
API, in order. -/
inductive JEvent where
  | prepOk
  | prepFail
  | bindEv
  | stepEv
  | colRead
  | fin
  deriving DecidableEq, Repr

/-- Oracle for the external SQLite engine together with the loaded
sqlite-vec extension: whether a given SQL text prepares successfully,
whether stepping the prepared statement with the given bound blobs yields
a row, and the column values read from that row. -/
structure SqlEngine where
  prepareOk : String → Bool
  stepRow : String → List (List Nat) → Bool
  colDouble : String → List (List Nat) → Rat
  colInt : String → List (List Nat) → Int
  colBlob : String → List (List Nat) → List Nat

/-- SQL text for the cosine distance query. -/
def cosineSql : String := "SELECT vec_distance_cosine(?, ?)"

/-- SQL text for the l2 distance query. -/
def l2Sql : String := "SELECT vec_distance_l2(?, ?)"

/-- SQL text for the vector length query. -/
def lengthSql : String := "SELECT vec_length(?)"

/-- SQL text for the normalize query. -/
def normalizeSql : String := "SELECT vec_normalize(?)"

/-- SQL text for the version query. -/
def versionSql : String := "SELECT vec_version()"

/-- Metric selection from `nativeDistance` in `sqlite-vec-jni.cpp`:
`cosine` and `l2` map to their queries, anything else defaults to the
cosine query. -/
def distanceSql (metric : String) : String :=
  if metric = "cosine" then cosineSql
  else if metric = "l2" then l2Sql
  else cosineSql

/-- `Java_com_sqlite_vec_SQLiteVec_nativeDistance` from
`sqlite-vec-jni.cpp`: null handle → `-1.0`; prepare failure → `-1.0`;
step yields no row → `-1.0` (statement still finalized); otherwise the
double read from column 0.  The `jdouble` is modelled as `Rat` (the
binding does no arithmetic on it).  Returns (result, engine-call
trace). -/
def nativeDistance (eng : SqlEngine) (dbHandle : Nat)
    (vector1 vector2 : List Nat) (metric : String) : Rat × List JEvent :=
  if dbHandle = 0 then
    (-1, [])
  else
    let sql := distanceSql metric
    if eng.prepareOk sql then
      let args := [vector1, vector2]
      if eng.stepRow sql args then
        (eng.colDouble sql args,
         [.prepOk, .bindEv, .bindEv, .stepEv, .colRead, .fin])
      else
        (-1, [.prepOk, .bindEv, .bindEv, .stepEv, .fin])
    else
      (-1, [.prepFail])

/-- `Java_com_sqlite_vec_SQLiteVec_nativeVectorLength` from
`sqlite-vec-jni.cpp`: null handle → `-1`; prepare failure → `-1`; no row
→ `-1`; otherwise the int read from column 0. -/
def nativeVectorLength (eng : SqlEngine) (dbHandle : Nat)
    (vector : List Nat) : Int × List JEvent :=
  if dbHandle = 0 then
    (-1, [])
  else if eng.prepareOk lengthSql then
    let args := [vector]
    if eng.stepRow lengthSql args then
      (eng.colInt lengthSql args, [.prepOk, .bindEv, .stepEv, .colRead, .fin])
    else
      (-1, [.prepOk, .bindEv, .stepEv, .fin])
  else
    (-1, [.prepFail])

/-- `Java_com_sqlite_vec_SQLiteVec_nativeNormalize` from
`sqlite-vec-jni.cpp`: null handle → `nullptr`; prepare failure →
`nullptr`; no row → `nullptr`; otherwise a fresh byte array into which
the result blob is copied (before the statement is finalized — visible
as `colRead` preceding `fin` in the trace). -/
def nativeNormalize (eng : SqlEngine) (dbHandle : Nat)
    (vector : List Nat) : Option (List Nat) × List JEvent :=
  if dbHandle = 0 then
    (none, [])
  else if eng.prepareOk normalizeSql then
    let args := [vector]
    if eng.stepRow normalizeSql args then
      let blob := eng.colBlob normalizeSql args
      let blobSize := blob.length
      (some (setRegion (newArray blobSize) blob 0 blobSize),
       [.prepOk, .bindEv, .stepEv, .colRead, .fin])
    else
      (none, [.prepOk, .bindEv, .stepEv, .fin])
  else
    (none, [.prepFail])

/-- `Java_com_sqlite_vec_SQLiteVec_nativeIsLoaded` from
`sqlite-vec-jni.c`: prepares `SELECT vec_version()`; prepare failure →
`false`; otherwise steps, finalizes, and returns whether the step
produced a row. -/
def nativeIsLoaded (eng : SqlEngine) (db_pointer : Nat) : Bool × List JEvent :=
  let _ := db_pointer
  if eng.prepareOk versionSql then
    (eng.stepRow versionSql [], [.prepOk, .stepEv, .fin])
  else
    (false, [.prepFail])

/-- Concrete oracle for `sqlite3_vec_init` that always succeeds (used to
instantiate universally quantified statements on concrete inputs). -/
def okInit : Nat → Nat × Option String := fun _ => (SQLITE_OK, none)

/-- Concrete engine on which every prepare succeeds and every step yields
a row, with fixed column values. -/
def engAll : SqlEngine :=
  { prepareOk := fun _ => true
    stepRow := fun _ _ => true
    colDouble := fun _ _ => 2
    colInt := fun _ _ => 3
    colBlob := fun _ _ => [1, 2, 3, 4] }

/-- Concrete engine on which every prepare fails. -/
def engNoPrep : SqlEngine :=
  { prepareOk := fun _ => false
    stepRow := fun _ _ => false
    colDouble := fun _ _ => 0
    colInt := fun _ _ => 0
    colBlob := fun _ _ => [] }

/-- Concrete engine on which prepare succeeds but stepping never yields a
row. -/
def engNoRow : SqlEngine :=
  { prepareOk := fun _ => true
    stepRow := fun _ _ => false
    colDouble := fun _ _ => 0
    colInt := fun _ _ => 0
    colBlob := fun _ _ => [] }

/-- Writing a buffer of exactly `n` elements over a fresh `n`-element
array yields that buffer: the model of `New…Array` followed by a
full-length `Set…ArrayRegion`. -/
theorem setRegion_exact (src : List Nat) (n : Nat) (h : src.length = n) :
    setRegion (newArray n) src 0 n = src := by
  subst h
  simp [setRegion, newArray]

/-- The memory image of a float buffer occupies 4 bytes per element. -/
theorem wordsToBytes_length (v : List Nat) :
    (wordsToBytes v).length = 4 * v.length := by
  induction v with
  | nil => rfl
  | cons w rest ih => simp [wordsToBytes, wordToBytes, ih]; omega

/-- Reinterpreting a byte buffer as floats yields `⌊length / 4⌋`
elements. -/
theorem bytesToWords_length (b : List Nat) :
    (bytesToWords b).length = b.length / 4 := by
  match b with
  | b0 :: b1 :: b2 :: b3 :: rest =>
    simp [bytesToWords, bytesToWords_length rest]
    omega
  | [] => rfl
  | [_] => simp [bytesToWords]
  | [_, _] => simp [bytesToWords]
  | [_, _, _] => simp [bytesToWords]

/-- Reassembling the four little-endian bytes of a 32-bit value recovers
the value. -/
theorem word_reassemble (w : Nat) (h : w < 4294967296) :
    w % 256 + 256 * (w / 256 % 256) + 65536 * (w / 65536 % 256) +
      16777216 * (w / 16777216 % 256) = w := by
  omega

/-- Reassembling the 4-byte groups of a float buffer's memory image
recovers the original bit patterns, provided each pattern fits in 32
bits. -/
theorem bytesToWords_wordsToBytes (v : List Nat) (h : ∀ w ∈ v, w < 4294967296) :
    bytesToWords (wordsToBytes v) = v := by
  induction v with
  | nil => rfl
  | cons w rest ih =>
    have hw : w < 4294967296 := h w (List.mem_cons_self w rest)
    have hrest : ∀ x ∈ rest, x < 4294967296 := fun x hx => h x (List.mem_cons_of_mem w hx)
    simp only [wordsToBytes, wordToBytes, List.cons_append, List.nil_append, bytesToWords]
    rw [show ([] : List Nat).append (wordsToBytes rest) = wordsToBytes rest from rfl,
      ih hrest, word_reassemble w hw]

/-- The C deserializer returns exactly the reinterpreted leading
4-byte groups of its input. -/
theorem deserializeFloat32_c_fst (b : List Nat) :
    (deserializeFloat32_c b).1 = bytesToWords b := by
  unfold deserializeFloat32_c
  exact setRegion_exact _ _ (bytesToWords_length b)

/-- On a byte length divisible by 4, the C++ deserializer returns the
reinterpreted 4-byte groups. -/
theorem deserializeFloat32_cpp_fst (b : List Nat) (h : b.length % 4 = 0) :
    (deserializeFloat32_cpp b).1 = some (bytesToWords b) := by
  simp [deserializeFloat32_cpp, h, setRegion_exact _ _ (bytesToWords_length b)]

/-- Both serializers return the raw memory image of the float buffer. -/
theorem serializeFloat32_fst (v : List Nat) :
    (serializeFloat32_c v).1 = wordsToBytes v ∧
    (serializeFloat32_cpp v).1 = wordsToBytes v := by
  have h : (wordsToBytes v).length = v.length * 4 := by
    rw [wordsToBytes_length]; omega
  exact ⟨setRegion_exact _ _ h, setRegion_exact _ _ h⟩

/-- C1: for every float32 vector (given by its 32-bit patterns),
deserializing the serialized buffer yields the vector back exactly,
element for element, in both implementations; the serialized buffer has
exactly 4 bytes per element in host byte order. -/
theorem c1_float32_round_trip (v : List Nat) (h : ∀ w ∈ v, w < 4294967296) :
    (deserializeFloat32_c (serializeFloat32_c v).1).1 = v ∧
    (deserializeFloat32_cpp (serializeFloat32_cpp v).1).1 = some v ∧
    (serializeFloat32_c v).1.length = 4 * v.length := by
  obtain ⟨hc, hcpp⟩ := serializeFloat32_fst v
  have hlen : (wordsToBytes v).length = 4 * v.length := wordsToBytes_length v
  refine ⟨?_, ?_, ?_⟩
  · rw [hc, deserializeFloat32_c_fst, bytesToWords_wordsToBytes v h]
  · rw [hcpp, deserializeFloat32_cpp_fst _ (by omega), bytesToWords_wordsToBytes v h]
  · rw [hc, hlen]

/-- Witness for C1 on the three-element vector whose bit patterns encode
1.0f, -2.5f and 0.0f. -/
theorem c1_float32_round_trip_witness :
    (deserializeFloat32_c (serializeFloat32_c [1065353216, 3222798336, 0]).1).1 =
      [1065353216, 3222798336, 0] ∧
    (deserializeFloat32_cpp (serializeFloat32_cpp [1065353216, 3222798336, 0]).1).1 =
      some [1065353216, 3222798336, 0] ∧
    (serializeFloat32_c [1065353216, 3222798336, 0]).1.length = 4 * 3 :=
  c1_float32_round_trip [1065353216, 3222798336, 0] (by decide)

/-- C2 counterexample: the C implementation of DeserializeFloat32, on a
5-byte buffer (length not divisible by 4), returns a one-element vector
built from the truncated element count — not an absent result. -/
theorem c2_c_deserialize_truncates :
    (5 : Nat) % 4 ≠ 0 ∧
    (deserializeFloat32_c (List.replicate 5 0)).1 = [0] := by
  exact ⟨by decide, by decide⟩

/-- C2 amended: on a buffer whose length is not divisible by 4, the C++
implementation returns an absent result, while the C implementation
returns a partially-filled vector of `⌊length / 4⌋` elements. -/
theorem c2_misaligned_buffer (b : List Nat) (h : b.length % 4 ≠ 0) :
    (deserializeFloat32_cpp b).1 = none ∧
    (deserializeFloat32_c b).1.length = b.length / 4 := by
  constructor
  · simp [deserializeFloat32_cpp, h]
  · rw [deserializeFloat32_c_fst, bytesToWords_length]

/-- Witness for C2's amended statement on a 3-byte buffer. -/
theorem c2_misaligned_buffer_witness :
    (deserializeFloat32_cpp [1, 2, 3]).1 = none ∧
    (deserializeFloat32_c [1, 2, 3]).1.length = [1, 2, 3].length / 4 :=
  c2_misaligned_buffer [1, 2, 3] (by decide)

/-- C3 counterexample: on the 5-byte buffer `[1,2,3,4,5]`,
DeserializeFloat32 in the C++ implementation returns an absent result
while the C implementation returns the one-element vector `[67305985]`
(the word assembled from the first four bytes) — the two implementations
do not return the same result for every operation and input. -/
theorem c3_impls_differ :
    (deserializeFloat32_cpp [1, 2, 3, 4, 5]).1 = none ∧
    (deserializeFloat32_c [1, 2, 3, 4, 5]).1 = [67305985] ∧
    (deserializeFloat32_cpp [1, 2, 3, 4, 5]).1 ≠
      some (deserializeFloat32_c [1, 2, 3, 4, 5]).1 := by
  refine ⟨by decide, by decide, by decide⟩

/-- C3 amended: the two implementations agree on SerializeFloat32 and
SerializeInt8 for every input, on DeserializeFloat32 for every buffer
whose length is a multiple of 4, and on Init for every non-null handle;
they differ on DeserializeFloat32 for other buffer lengths and on Init
for a null handle. -/
theorem c3_partial_equivalence :
    (∀ v, (serializeFloat32_c v).1 = (serializeFloat32_cpp v).1) ∧
    (∀ b, (serializeInt8_c b).1 = (serializeInt8_cpp b).1) ∧
    (∀ b, b.length % 4 = 0 →
      some (deserializeFloat32_c b).1 = (deserializeFloat32_cpp b).1) ∧
    (∀ f db, db ≠ 0 → (nativeInit_c f db).1 = (nativeInit_cpp f db).1) := by
  refine ⟨fun v => rfl, fun b => rfl, fun b h => ?_, fun f db h => ?_⟩
  · rw [deserializeFloat32_c_fst, deserializeFloat32_cpp_fst b h]
  · simp [nativeInit_c, nativeInit_cpp, h]

/-- Witness for C3's amended statement at concrete inputs. -/
theorem c3_partial_equivalence_witness :
    (serializeFloat32_c [7]).1 = (serializeFloat32_cpp [7]).1 ∧
    (serializeInt8_c [9]).1 = (serializeInt8_cpp [9]).1 ∧
    some (deserializeFloat32_c [1, 2, 3, 4]).1 = (deserializeFloat32_cpp [1, 2, 3, 4]).1 ∧
    (nativeInit_c okInit 5).1 = (nativeInit_cpp okInit 5).1 :=
  ⟨c3_partial_equivalence.1 [7], c3_partial_equivalence.2.1 [9],
   c3_partial_equivalence.2.2.1 [1, 2, 3, 4] (by decide),
   c3_partial_equivalence.2.2.2 okInit 5 (by decide)⟩

/-- C4: for every engine, connection, pair of buffers and metric string
that is neither cosine nor l2, Distance behaves exactly as with the
cosine metric: same result and same engine-call trace, so no error is
raised for the unknown metric. -/
theorem c4_unknown_metric_defaults_to_cosine (eng : SqlEngine) (dbHandle : Nat)
    (v1 v2 : List Nat) (m : String) (h1 : m ≠ "cosine") (h2 : m ≠ "l2") :
    nativeDistance eng dbHandle v1 v2 m = nativeDistance eng dbHandle v1 v2 "cosine" := by
  have hd : distanceSql m = cosineSql := by simp [distanceSql, h1, h2]
  have hc : distanceSql "cosine" = cosineSql := by simp [distanceSql]
  unfold nativeDistance
  rw [hd, hc]

/-- Witness for C4 with the empty metric string on a concrete engine. -/
theorem c4_unknown_metric_defaults_to_cosine_witness :
    nativeDistance engAll 1 [] [] "" = nativeDistance engAll 1 [] [] "cosine" :=
  c4_unknown_metric_defaults_to_cosine engAll 1 [] [] "" (by decide) (by decide)

/-- C5 counterexample: the C implementation of nativeInit performs no
null check — with a registration entry point that reports success, a null
connection handle yields the success status `SQLITE_OK`, and the call
flag records that the entry point was invoked with the null handle.
Both halves contradict the claim (failure status, no engine call). -/
theorem c5_c_init_null_calls_entry_point :
    nativeInit_c okInit 0 = (SQLITE_OK, true) ∧ SQLITE_OK ≠ SQLITE_ERROR := by
  exact ⟨rfl, by decide⟩

/-- C5 amended: the C++ implementation of nativeInit returns the failure
status `SQLITE_ERROR` on a null handle without calling the registration
entry point; the C implementation performs no null check, forwards the
null handle to the entry point, and returns whatever status it
produces. -/
theorem c5_cpp_init_null_fails_fast (extInit : Nat → Nat × Option String) :
    nativeInit_cpp extInit 0 = (SQLITE_ERROR, false) ∧
    nativeInit_c extInit 0 = ((extInit 0).1, true) := by
  exact ⟨rfl, rfl⟩

/-- C6: both int8 marshalling directions are identity copies in every
implementation: output bytes equal input bytes (hence also equal
length). -/
theorem c6_int8_identity (v : List Nat) :
    (serializeInt8_c v).1 = v ∧
    (deserializeInt8_c v).1 = v ∧
    (serializeInt8_cpp v).1 = v := by
  exact ⟨setRegion_exact v v.length rfl, setRegion_exact v v.length rfl,
    setRegion_exact v v.length rfl⟩

/-- C7: Distance returns the sentinel `-1.0` in each failure case (null
connection handle, prepare failure, step without a result row), and
otherwise returns the double read from the single result row. -/
theorem c7_distance_sentinel (eng : SqlEngine) (dbHandle : Nat)
    (v1 v2 : List Nat) (m : String) :
    (dbHandle = 0 → (nativeDistance eng dbHandle v1 v2 m).1 = -1) ∧
    (dbHandle ≠ 0 → eng.prepareOk (distanceSql m) = false →
      (nativeDistance eng dbHandle v1 v2 m).1 = -1) ∧
    (dbHandle ≠ 0 → eng.prepareOk (distanceSql m) = true →
      eng.stepRow (distanceSql m) [v1, v2] = false →
      (nativeDistance eng dbHandle v1 v2 m).1 = -1) ∧
    (dbHandle ≠ 0 → eng.prepareOk (distanceSql m) = true →
      eng.stepRow (distanceSql m) [v1, v2] = true →
      (nativeDistance eng dbHandle v1 v2 m).1 =
        eng.colDouble (distanceSql m) [v1, v2]) := by
  refine ⟨?_, ?_, ?_, ?_⟩ <;> intros <;> simp [nativeDistance, *]

/-- Witness for C7: all four branches exercised on concrete engines. -/
theorem c7_distance_sentinel_witness :
    (nativeDistance engAll 0 [] [] "l2").1 = -1 ∧
    (nativeDistance engNoPrep 1 [] [] "l2").1 = -1 ∧
    (nativeDistance engNoRow 1 [] [] "l2").1 = -1 ∧
    (nativeDistance engAll 1 [] [] "l2").1 =
      engAll.colDouble (distanceSql "l2") [[], []] :=
  ⟨(c7_distance_sentinel engAll 0 [] [] "l2").1 rfl,
   (c7_distance_sentinel engNoPrep 1 [] [] "l2").2.1 (by decide) rfl,
   (c7_distance_sentinel engNoRow 1 [] [] "l2").2.2.1 (by decide) rfl rfl,
   (c7_distance_sentinel engAll 1 [] [] "l2").2.2.2 (by decide) rfl rfl⟩

/-- C8: every query-adapter operation finalizes exactly as many
statements as it successfully prepares, on every exit path — no
successfully prepared statement is left open (cached or leaked) and none
is finalized twice, for every engine behaviour and input. -/
theorem c8_prepare_finalize_balanced (eng : SqlEngine) (dbHandle : Nat)
    (v1 v2 b : List Nat) (m : String) :
    ((nativeDistance eng dbHandle v1 v2 m).2.count JEvent.prepOk =
      (nativeDistance eng dbHandle v1 v2 m).2.count JEvent.fin) ∧
    ((nativeVectorLength eng dbHandle b).2.count JEvent.prepOk =
      (nativeVectorLength eng dbHandle b).2.count JEvent.fin) ∧
    ((nativeNormalize eng dbHandle b).2.count JEvent.prepOk =
      (nativeNormalize eng dbHandle b).2.count JEvent.fin) ∧
    ((nativeIsLoaded eng dbHandle).2.count JEvent.prepOk =
      (nativeIsLoaded eng dbHandle).2.count JEvent.fin) := by
  refine ⟨?_, ?_, ?_, ?_⟩ <;>
    · simp only [nativeDistance, nativeVectorLength, nativeNormalize, nativeIsLoaded]
      split_ifs <;> rfl

/-- C9: Normalize returns an absent result exactly in the failure cases
(null handle, prepare failure, no result row); on success it returns a
fresh buffer holding the blob read from the result row, and the read
happens before the finalize call in the engine trace. -/
theorem c9_normalize_absent_or_blob (eng : SqlEngine) (dbHandle : Nat)
    (v : List Nat) :
    ((nativeNormalize eng dbHandle v).1 = none ↔
      dbHandle = 0 ∨ eng.prepareOk normalizeSql = false ∨
        eng.stepRow normalizeSql [v] = false) ∧
    (dbHandle ≠ 0 → eng.prepareOk normalizeSql = true →
      eng.stepRow normalizeSql [v] = true →
      (nativeNormalize eng dbHandle v).1 = some (eng.colBlob normalizeSql [v]) ∧
      (nativeNormalize eng dbHandle v).2 =
        [JEvent.prepOk, JEvent.bindEv, JEvent.stepEv, JEvent.colRead, JEvent.fin]) := by
  constructor
  · by_cases h1 : dbHandle = 0
    · simp [nativeNormalize, h1]
    · by_cases h2 : eng.prepareOk normalizeSql = true
      · by_cases h3 : eng.stepRow normalizeSql [v] = true
        · simp [nativeNormalize, h1, h2, h3]
        · simp [nativeNormalize, h1, h2, h3]
      · simp [nativeNormalize, h1, h2]
  · intro h1 h2 h3
    have hb := setRegion_exact (eng.colBlob normalizeSql [v])
      (eng.colBlob normalizeSql [v]).length rfl
    unfold nativeNormalize
    simp [h1, h2, h3, hb]

/-- Witness for C9's success branch on a concrete engine. -/
theorem c9_normalize_absent_or_blob_witness :
    (nativeNormalize engAll 1 []).1 = some (engAll.colBlob normalizeSql [[]]) ∧
    (nativeNormalize engAll 1 []).2 =
      [JEvent.prepOk, JEvent.bindEv, JEvent.stepEv, JEvent.colRead, JEvent.fin] :=
  (c9_normalize_absent_or_blob engAll 1 []).2 (by decide) rfl rfl

/-- C10: every marshalling operation leaves the borrowed input array
unchanged after its release call, in both implementations (the C side
commits back an unmodified element buffer, the C++ side aborts the
borrow). -/
theorem c10_marshaller_preserves_input (v b : List Nat) :
    (serializeFloat32_c v).2 = v ∧
    (deserializeFloat32_c b).2 = b ∧
    (serializeInt8_c b).2 = b ∧
    (deserializeInt8_c b).2 = b ∧
    (serializeFloat32_cpp v).2 = v ∧
    (deserializeFloat32_cpp b).2 = b ∧
    (serializeInt8_cpp b).2 = b := by
  refine ⟨rfl, rfl, rfl, rfl, rfl, ?_, rfl⟩
  unfold deserializeFloat32_cpp
  split_ifs <;> rfl
